import Mathlib

/-!
Verification of the Messier skymap application core (src/js/app.js).

Coordinates are modelled as rationals (`ℚ`); every arithmetic fact the
claims state is exact linear arithmetic, so `ℚ` is a faithful carrier for
the JavaScript `number` values involved.  Strings are modelled as Lean
`String`s, JavaScript objects used as dictionaries as lookup functions,
and the DOM side effects of the handlers as explicit values (marker style
records, list-row visibility flags).
-/

namespace Messier

/-- A catalog record, as consumed by app.js (`messier_data.json` entries).
`type` is `Option String` because the code guards `obj.type && ...`
against an absent field. -/
structure CatalogEntry where
  id : String
  name : String
  type : Option String
  ra_decimal : ℚ
  dec_decimal : ℚ
deriving Repr, DecidableEq

/-- An entry of `messier_dzi/manifest.json` as used by app.js. -/
structure ManifestEntry where
  id : String
  thumbnail : String
  dzi : String
deriving Repr, DecidableEq

/-- A hotspot record from `output/messier_skymap_8k_hotspots.json`:
an object id, a normalized bbox `[x0,y0,x1,y1]` and a center pixel. -/
structure HotspotRegion where
  id : String
  bbox_norm : ℚ × ℚ × ℚ × ℚ
  center_px : ℚ × ℚ
deriving Repr, DecidableEq

/-- Forward projection used for markers (app.js lines 186-194):
`lat = dec`, `lng = ra - 180`.  No clamping, no branching. -/
def celestialToPlanar (ra dec : ℚ) : ℚ × ℚ :=
  (dec, ra - 180)

/-- Pixel-to-celestial inversion (app.js lines 134-137):
`ra = (px / W) * 360`, `dec = 90 - (py / H) * 180`.  The source inlines
the mosaic dimensions as the constants `w = 8192`, `hgt = 4096`; the
formula is stated here with the dimensions as parameters, exactly as the
spec's `CoordinateProjector.pixelToCelestial` names them. -/
def pixelToCelestial (px py W H : ℚ) : ℚ × ℚ :=
  ((px / W) * 360, 90 - (py / H) * 180)

/-- Inverse planar-to-celestial mapping, from the mousemove handler
(app.js lines 171-176): `ra = lng + 180`, `dec = lat`. -/
def planarToCelestial (lat lng : ℚ) : ℚ × ℚ :=
  (lng + 180, lat)

/-- The hotspot anchor computation (app.js lines 130-140): convert
`center_px` back to RA/Dec assuming an 8192×4096 mosaic, then apply the
marker projection `lat = dec`, `lng = ra - 180`. -/
def resolveAnchor (h : HotspotRegion) : ℚ × ℚ :=
  let w : ℚ := 8192
  let hgt : ℚ := 4096
  let cx := h.center_px.1
  let cy := h.center_px.2
  let ra := (cx / w) * 360
  let dec := 90 - (cy / hgt) * 180
  (dec, ra - 180)

/-- JavaScript `s.includes(sub)`: substring containment.  As in JS, the
empty string is contained in every string. -/
def jsIncludes (s sub : String) : Bool :=
  (List.range (s.data.length + 1)).any (fun i => sub.data.isPrefixOf (s.data.drop i))

/-- JavaScript `s.replace(pat, repl)` with a string pattern: replaces only
the FIRST occurrence of `pat`, and returns `s` unchanged when `pat` does
not occur. -/
def jsReplaceFirst (s pat repl : String) : String :=
  match (List.range (s.data.length + 1)).find?
      (fun i => pat.data.isPrefixOf (s.data.drop i)) with
  | none => s
  | some i => ⟨s.data.take i ++ repl.data ++ s.data.drop (i + pat.data.length)⟩

/-- The `dziMap` dictionary built at startup (app.js line 80):
`manifest.forEach(item => dziMap[item.id] = item)`, so a later manifest
entry with the same id overwrites an earlier one. -/
def buildDziMap (manifest : List ManifestEntry) : String → Option ManifestEntry :=
  manifest.foldl (fun m item => fun k => if k == item.id then some item else m k)
    (fun _ => none)

/-- The pyramid lookup (app.js line 258):
`dziMap[o.id] || dziMap[o.id.replace('-02','')]` — exact match first, then
one retry with the first `"-02"` substring stripped; `none` models the
JS `undefined` miss (the caller then falls back to a placeholder image). -/
def resolve (dziMap : String → Option ManifestEntry) (oid : String) :
    Option ManifestEntry :=
  match dziMap oid with
  | some e => some e
  | none => dziMap (jsReplaceFirst oid "-02" "")

/-- The filter predicate (app.js lines 213 and 224):
`(type === 'all') || (obj.type && obj.type.includes(type))`.  The
`obj.type &&` guard is a JS truthiness test: it short-circuits to falsy
both when the `type` field is absent and when it is the empty string, so
`.includes` is only consulted for a present, nonempty type. -/
def matchesFilter (o : CatalogEntry) (ty : String) : Bool :=
  (ty == "all") ||
    (match o.type with
     | some t => (t != "") && jsIncludes t ty
     | none => false)

/-- The hotspot click handler (app.js lines 141-144): look the hotspot id
up in the catalog and open the detail view only when an entry is found.
The returned `Option` is the handler's whole effect: `none` means no
detail view is opened and nothing changes. -/
def handleHotspotClick (messier : List CatalogEntry) (hid : String) :
    Option CatalogEntry :=
  messier.find? (fun m => m.id == hid)

/-- Error taxonomy for the pixel inversion, from the spec's §7. -/
inductive ProjError where
  | invalidDimension
deriving Repr, DecidableEq

/-- The pixel inversion with an explicit error channel for the
`InvalidDimension` condition of the spec.  The source (app.js lines
134-137) performs no dimension validation at all — the computation is a
straight-line arithmetic expression — so this embedding has no `.error`
branch: every input, including zero or negative dimensions, yields `.ok`. -/
def pixelToCelestialE (px py W H : ℚ) : Except ProjError (ℚ × ℚ) :=
  Except.ok (pixelToCelestial px py W H)

/-- The three style fields `setStyle` touches in filterByType
(app.js lines 214-215). -/
structure MarkerStyle where
  opacity : ℚ
  fillOpacity : ℚ
  radius : ℚ
deriving Repr, DecidableEq

/-- Shown-marker style (app.js line 214: `opacity:1, fillOpacity:0.9,
radius:6`; `opacity` is also 1 at marker creation, Leaflet's default,
since line 190 does not set it). -/
def fullStyle : MarkerStyle := ⟨1, mkRat 9 10, 6⟩

/-- Dimmed-marker style (app.js line 215: `opacity:0.15, fillOpacity:0.1,
radius:4`). -/
def dimStyle : MarkerStyle := ⟨mkRat 3 20, mkRat 1 10, 4⟩

/-- A map marker as recorded in the `markers` array (app.js line 193):
its catalog id, its planar position, and its current style. -/
structure Marker where
  id : String
  pos : ℚ × ℚ
  style : MarkerStyle
deriving Repr, DecidableEq

/-- A list row (`li`) of `#objectList`: its text and whether its display
style currently shows it. -/
structure ListRow where
  text : String
  visible : Bool
deriving Repr, DecidableEq

/-- Marker construction in setupMap (app.js lines 187-194): one marker
per catalog entry, in catalog order, at `(dec, ra - 180)`. -/
def setupMarkers (messier : List CatalogEntry) : List Marker :=
  messier.map (fun o => ⟨o.id, (o.dec_decimal, o.ra_decimal - 180), fullStyle⟩)

/-- buildList (app.js lines 154-159): one row per catalog entry with text
`${o.id} — ${o.name}`, initially visible. -/
def buildList (messier : List CatalogEntry) : List ListRow :=
  messier.map (fun o => ⟨o.id ++ " — " ++ o.name, true⟩)

/-- The id extraction in filterByType (app.js line 221):
`li.textContent.split(' — ')[0]` — the part of the text before the first
occurrence of `" — "`, or the whole text when the separator is absent. -/
def rowId (text : String) : String :=
  match (List.range (text.data.length + 1)).find?
      (fun i => " — ".data.isPrefixOf (text.data.drop i)) with
  | none => text
  | some i => ⟨text.data.take i⟩

/-- The marker half of filterByType (app.js lines 210-216): each marker's
catalog entry is looked up by id; a missing entry leaves the marker
untouched, otherwise the style is set from the shared predicate. -/
def filterMarkers (messier : List CatalogEntry) (ty : String)
    (ms : List Marker) : List Marker :=
  ms.map (fun m =>
    match messier.find? (fun o => o.id == m.id) with
    | none => m
    | some obj =>
      if matchesFilter obj ty then { m with style := fullStyle }
      else { m with style := dimStyle })

/-- The list half of filterByType (app.js lines 218-226): the id is
re-extracted from the row text, the entry looked up, and the row's
display toggled by the same predicate; a missing entry leaves the row
untouched. -/
def filterRows (messier : List CatalogEntry) (ty : String)
    (rows : List ListRow) : List ListRow :=
  rows.map (fun li =>
    match messier.find? (fun o => o.id == rowId li.text) with
    | none => li
    | some obj => { li with visible := matchesFilter obj ty })

/-- The module-level mutable state of app.js that filtering touches:
the catalog array, the markers array, and the list rows. -/
structure AppState where
  messier : List CatalogEntry
  markers : List Marker
  rows : List ListRow
deriving Repr, DecidableEq

/-- State after buildList + setupMap have run on a loaded catalog. -/
def setup (catalog : List CatalogEntry) : AppState :=
  ⟨catalog, setupMarkers catalog, buildList catalog⟩

/-- filterByType (app.js lines 209-227) as a state transformer. -/
def filterByType (ty : String) (s : AppState) : AppState :=
  ⟨s.messier, filterMarkers s.messier ty s.markers, filterRows s.messier ty s.rows⟩

/-- Identifiers of the list rows currently shown, as filterByType itself
identifies them (by re-extracting the id from the row text). -/
def shownRowIds (s : AppState) : List String :=
  (s.rows.filter (fun r => r.visible)).map (fun r => rowId r.text)

/-- Identifiers of the markers currently at full opacity. -/
def fullOpacityIds (s : AppState) : List String :=
  (s.markers.filter (fun m => m.style.opacity == 1)).map (fun m => m.id)

/-- Claim C1: for every RA `r` and Dec `d`, `celestialToPlanar r d` is
exactly `(d, r - 180)` — in particular no clamping happens, Dec values
outside `[-90, 90]` pass through unchanged, and the function is total
(it is a plain Lean function on all of `ℚ × ℚ`). -/
theorem celestialToPlanar_exact (r d : ℚ) :
    celestialToPlanar r d = (d, r - 180) := rfl

/-- Claim C2: for positive mosaic dimensions the pixel inversion computes
`ra = (px/W)*360`, `dec = 90 - (py/H)*180`, and in particular sends the
corners and the center of the mosaic to `(0, 90)`, `(360, -90)` and
`(180, 0)` respectively. -/
theorem pixelToCelestial_spec (px py W H : ℚ) (hW : 0 < W) (hH : 0 < H) :
    pixelToCelestial px py W H = ((px / W) * 360, 90 - (py / H) * 180) ∧
    pixelToCelestial 0 0 W H = (0, 90) ∧
    pixelToCelestial W H W H = (360, -90) ∧
    pixelToCelestial (W / 2) (H / 2) W H = (180, 0) := by
  have hW' : W ≠ 0 := ne_of_gt hW
  have hH' : H ≠ 0 := ne_of_gt hH
  refine ⟨rfl, ?_, ?_, ?_⟩
  · simp [pixelToCelestial]
  · simp [pixelToCelestial, div_self hW', div_self hH']
    norm_num
  · simp [pixelToCelestial]
    constructor
    · field_simp
      ring
    · field_simp
      ring

/-- Witness for C2 at the real mosaic size 8192×4096. -/
theorem pixelToCelestial_spec_witness :
    pixelToCelestial (8192 / 2) (4096 / 2) 8192 4096 = (180, 0) :=
  (pixelToCelestial_spec 0 0 8192 4096 (by norm_num) (by norm_num)).2.2.2

/-- Claim C3: the pyramid lookup tries an exact match first; on a miss it
strips the first literal `"-02"` substring and retries exactly once; when
both attempts miss it returns `none` (`NotFound`), not an exception.  In
particular `"M51-02"` resolves to the `"M51"` entry when `"M51-02"` is
absent but `"M51"` is present, and to `none` when neither is present. -/
theorem resolve_fallback (d : String → Option ManifestEntry) (oid : String)
    (e : ManifestEntry) :
    (d oid = some e → resolve d oid = some e) ∧
    (d oid = none → resolve d oid = d (jsReplaceFirst oid "-02" "")) ∧
    (d "M51-02" = none → d "M51" = some e → resolve d "M51-02" = some e) ∧
    (d "M51-02" = none → d "M51" = none → resolve d "M51-02" = none) := by
  have hM : jsReplaceFirst "M51-02" "-02" "" = "M51" := by decide
  refine ⟨fun h => by simp [resolve, h], fun h => by simp [resolve, h], ?_, ?_⟩
  · intro h1 h2
    simp [resolve, h1, hM, h2]
  · intro h1 h2
    simp [resolve, h1, hM, h2]

/-- Witness for C3: a one-entry manifest holding only `"M51"`. -/
theorem resolve_fallback_witness :
    resolve (buildDziMap [⟨"M51", "M51/thumb.jpg", "M51/image.dzi"⟩]) "M51-02" =
      some ⟨"M51", "M51/thumb.jpg", "M51/image.dzi"⟩ :=
  (resolve_fallback (buildDziMap [⟨"M51", "M51/thumb.jpg", "M51/image.dzi"⟩])
      "M51-02" ⟨"M51", "M51/thumb.jpg", "M51/image.dzi"⟩).2.2.1
    (by decide) (by decide)

/-- Claim C5 (code bug): the spec requires `pixelToCelestial` to fail
loudly with `InvalidDimension` on a zero or negative mosaic dimension,
but the code has no dimension check: at the failing input `W = 0` (and at
every other input) it silently produces an `.ok` result, never
`.error .invalidDimension`. -/
theorem pixelToCelestialE_never_fails :
    (pixelToCelestialE 4096 2048 0 4096).isOk = true ∧
    ∀ px py W H : ℚ, (pixelToCelestialE px py W H).isOk = true :=
  ⟨rfl, fun _ _ _ _ => rfl⟩

/-- Claim C6: every hotspot anchor is `center_px` fed through
`pixelToCelestial` (at the fixed 8192×4096 mosaic size) and then through
`celestialToPlanar`; for center pixel `(4096, 2048)` the anchor is
exactly `(0, 0)`. -/
theorem resolveAnchor_spec (h : HotspotRegion) :
    (resolveAnchor h =
      celestialToPlanar (pixelToCelestial h.center_px.1 h.center_px.2 8192 4096).1
        (pixelToCelestial h.center_px.1 h.center_px.2 8192 4096).2) ∧
    (h.center_px = (4096, 2048) → resolveAnchor h = (0, 0)) := by
  refine ⟨rfl, fun hc => ?_⟩
  simp [resolveAnchor, hc]
  norm_num

/-- Witness for C6 at a concrete hotspot region. -/
theorem resolveAnchor_spec_witness :
    resolveAnchor ⟨"M1", (0, 0, 1, 1), (4096, 2048)⟩ = (0, 0) :=
  (resolveAnchor_spec ⟨"M1", (0, 0, 1, 1), (4096, 2048)⟩).2 rfl

/-- Claim C7: `planarToCelestial` inverts `celestialToPlanar` exactly on
the stated domain: for `r ∈ [0, 360)` and `d ∈ [-90, 90]` the round trip
returns `(r, d)`. -/
theorem planar_roundtrip (r d : ℚ) (h0 : 0 ≤ r) (h1 : r < 360)
    (h2 : -90 ≤ d) (h3 : d ≤ 90) :
    planarToCelestial (celestialToPlanar r d).1 (celestialToPlanar r d).2 =
      (r, d) := by
  simp [planarToCelestial, celestialToPlanar]

/-- Witness for C7 at `r = 10`, `d = 45`. -/
theorem planar_roundtrip_witness :
    planarToCelestial (celestialToPlanar 10 45).1 (celestialToPlanar 10 45).2 =
      (10, 45) :=
  planar_roundtrip 10 45 (by norm_num) (by norm_num) (by norm_num) (by norm_num)

/-- Counterexample to claim C8 as stated: for the entry with
`type = some ""` under the filter value `""`, the entry's type contains
the filter as a substring (`"".includes("")` is true in JS and here) and
the filter is not `"all"`, yet the predicate returns false — the JS
truthiness guard `obj.type &&` short-circuits on the empty string before
`.includes` is ever consulted. -/
theorem matchesFilter_truthiness_counterexample :
    jsIncludes "" "" = true ∧ ("" == "all") = false ∧
    matchesFilter ⟨"M1", "Crab Nebula", some "", 83, 22⟩ "" = false := by
  decide

/-- Claim C8 (amended): `matchesFilter` is a total boolean predicate
that returns true exactly when the filter is `"all"` or the entry's type
is present, nonempty (JS-truthy), and contains the filter as a
substring; `matchesFilter o "all"` is true for every entry, including
entries with no type field, and the function never fails. -/
theorem matches_spec (o : CatalogEntry) (ty : String) :
    (matchesFilter o ty = true ↔
      ty = "all" ∨ ∃ t, o.type = some t ∧ t ≠ "" ∧ jsIncludes t ty = true) ∧
    matchesFilter o "all" = true := by
  constructor
  · cases h : o.type <;> simp [matchesFilter, h, and_assoc]
  · simp [matchesFilter]

/-- Witness for C8: a concrete entry under the `"all"` filter. -/
theorem matches_spec_witness :
    matchesFilter ⟨"M31", "Andromeda", some "galaxy", 10, 41⟩ "all" = true :=
  (matches_spec ⟨"M31", "Andromeda", some "galaxy", 10, 41⟩ "all").2

/-- Claim C9: a hotspot whose object id matches no catalog entry yields a
no-op click handler: no detail view is opened (`none`) and no state
changes. -/
theorem hotspotClick_unknown_id_noop (messier : List CatalogEntry)
    (hid : String) (h : ∀ m ∈ messier, m.id ≠ hid) :
    handleHotspotClick messier hid = none := by
  simp only [handleHotspotClick, List.find?_eq_none, beq_iff_eq]
  exact h

/-- Witness for C9: a one-entry catalog and a dangling hotspot id. -/
theorem hotspotClick_unknown_id_noop_witness :
    handleHotspotClick [⟨"M31", "Andromeda", some "galaxy", 10, 41⟩] "M99" =
      none :=
  hotspotClick_unknown_id_noop [⟨"M31", "Andromeda", some "galaxy", 10, 41⟩]
    "M99" (by decide)

/-- Synchronisation core of filterByType: for rows and markers built from
the same entry list `l` (with entry lookups into a fixed catalog `c`),
the ids of the shown rows coincide with the ids of the full-opacity
markers, position by position.  The only assumption is that the id
re-extraction from each row text recovers the id (true whenever no id
contains the `" — "` separator). -/
theorem filterSync (c : List CatalogEntry) (ty : String)
    (l : List CatalogEntry)
    (h : ∀ o ∈ l, rowId (o.id ++ " — " ++ o.name) = o.id) :
    ((filterRows c ty (buildList l)).filter (fun r => r.visible)).map
        (fun r => rowId r.text) =
      ((filterMarkers c ty (setupMarkers l)).filter
          (fun m => m.style.opacity == 1)).map (fun m => m.id) := by
  have hfull : (fullStyle.opacity == 1) = true := by decide
  have hdim : (dimStyle.opacity == 1) = false := by decide
  induction l with
  | nil => rfl
  | cons o l ih =>
    have ho : rowId (o.id ++ " — " ++ o.name) = o.id :=
      h o (List.mem_cons_self o l)
    have ih' := ih (fun x hx => h x (List.mem_cons_of_mem o hx))
    simp only [buildList, setupMarkers, List.map_cons, filterRows,
      filterMarkers, ho] at ih' ⊢
    cases hfind : c.find? (fun x => x.id == o.id) with
    | none =>
      simpa [List.filter_cons, hfull, ho] using ih'
    | some obj =>
      cases hm : matchesFilter obj ty with
      | true => simpa [List.filter_cons, hfull, ho, hm] using ih'
      | false => simpa [List.filter_cons, hdim, hm] using ih'

/-- Claim C4: for every filter value, the identifiers of the shown list
rows are exactly the identifiers of the full-opacity markers — both views
are driven by the same predicate.  The hypothesis states that id
re-extraction from the row text `${id} — ${name}` recovers the id, which
holds whenever no catalog id contains the `" — "` separator. -/
theorem filter_views_in_sync (c : List CatalogEntry) (ty : String)
    (h : ∀ o ∈ c, rowId (o.id ++ " — " ++ o.name) = o.id) :
    shownRowIds (filterByType ty (setup c)) =
      fullOpacityIds (filterByType ty (setup c)) := by
  simpa only [shownRowIds, fullOpacityIds, filterByType, setup] using
    filterSync c ty c h

/-- Witness for C4: a two-entry catalog under the `"galaxy"` filter. -/
theorem filter_views_in_sync_witness :
    shownRowIds (filterByType "galaxy"
        (setup [⟨"M31", "Andromeda", some "galaxy", 10, 41⟩,
          ⟨"M1", "Crab Nebula", some "nebula", 83, 22⟩])) =
      fullOpacityIds (filterByType "galaxy"
        (setup [⟨"M31", "Andromeda", some "galaxy", 10, 41⟩,
          ⟨"M1", "Crab Nebula", some "nebula", 83, 22⟩])) :=
  filter_views_in_sync
    [⟨"M31", "Andromeda", some "galaxy", 10, 41⟩,
      ⟨"M1", "Crab Nebula", some "nebula", 83, 22⟩] "galaxy" (by decide)

/-- Claim C10: setupMap creates exactly one marker per catalog entry, in
catalog order, with matching ids; and filterByType only restyles markers
and toggles row visibility — the catalog, the markers' ids, order, count
and positions, and the row texts are all left unchanged. -/
theorem setup_filter_frame (c : List CatalogEntry) (ty : String)
    (s : AppState) :
    ((setup c).markers.map (fun m => m.id) = c.map (fun o => o.id)) ∧
    ((setup c).markers.length = c.length) ∧
    ((filterByType ty s).messier = s.messier) ∧
    ((filterByType ty s).markers.map (fun m => m.id) =
      s.markers.map (fun m => m.id)) ∧
    ((filterByType ty s).markers.map (fun m => m.pos) =
      s.markers.map (fun m => m.pos)) ∧
    ((filterByType ty s).markers.length = s.markers.length) ∧
    ((filterByType ty s).rows.map (fun r => r.text) =
      s.rows.map (fun r => r.text)) := by
  refine ⟨?_, ?_, rfl, ?_, ?_, ?_, ?_⟩
  · simp [setup, setupMarkers, List.map_map, Function.comp]
  · simp [setup, setupMarkers]
  · simp only [filterByType, filterMarkers, List.map_map]
    refine List.map_congr_left fun m _ => ?_
    simp only [Function.comp]
    cases s.messier.find? (fun o => o.id == m.id) with
    | none => rfl
    | some obj =>
      dsimp only
      cases matchesFilter obj ty <;> rfl
  · simp only [filterByType, filterMarkers, List.map_map]
    refine List.map_congr_left fun m _ => ?_
    simp only [Function.comp]
    cases s.messier.find? (fun o => o.id == m.id) with
    | none => rfl
    | some obj =>
      dsimp only
      cases matchesFilter obj ty <;> rfl
  · simp [filterByType, filterMarkers]
  · simp only [filterByType, filterRows, List.map_map]
    refine List.map_congr_left fun r _ => ?_
    simp only [Function.comp]
    cases s.messier.find? (fun o => o.id == rowId r.text) with
    | none => rfl
    | some obj => rfl

end Messier
